import Mathlib

/-!
Shallow embedding of the Claudix VS Code extension integration services:
the debounced file watcher (FileWatcherService), the CC-Switch provider
reader (CCSwitchService), and the WebView message bridge (WebViewService).
Definitions are translated from the TypeScript source; theorems establish
behavioral properties of those definitions.
-/

namespace Claudix

/-! ### File watcher (FileWatcherService.watchFile) -/

/-- Kind of a raw filesystem event, as dispatched by the three watcher
subscriptions (onDidCreate, onDidChange, onDidDelete). -/
inductive ChangeType where
  | created
  | modified
  | deleted
deriving DecidableEq

/-- FileChangeEvent: the structured change event passed to the registered
callback. Timestamps are wall-clock milliseconds since the epoch. -/
structure FileChangeEvent where
  filePath : String
  changeType : ChangeType
  timestamp : Nat
deriving DecidableEq

/-- debounceMs = 500: raw events arriving within 500 ms of the last accepted
event are ignored. -/
def debounceMs : Nat := 500

/-- One raw filesystem event delivered to handleChange: its arrival time
(Date.now, wall-clock milliseconds since the epoch), its kind, and the
uri.fsPath of the affected file. -/
structure RawEvent where
  time : Nat
  kind : ChangeType
  fsPath : String
deriving DecidableEq

/-- handleChange: the debounce gate of FileWatcherService.watchFile. Given the
current lastModTime and a raw event, it returns the updated lastModTime
together with the change event passed to the callback (none when the event is
dropped). The source compares now - lastModTime < debounceMs on JS numbers;
when now < lastModTime the JS difference is negative, hence below the
threshold, which matches truncated subtraction on Nat. -/
def handleChange (lastModTime : Nat) (e : RawEvent) : Nat × Option FileChangeEvent :=
  if e.time - lastModTime < debounceMs then
    (lastModTime, none)
  else
    (e.time, some ⟨e.fsPath, e.kind, e.time⟩)

/-- processEvents: the sequence of callback invocations produced by feeding raw
events, in delivery order, through the debounce gate starting from the given
lastModTime state. -/
def processEvents : Nat → List RawEvent → List FileChangeEvent
  | _, [] => []
  | lastModTime, e :: es =>
    match handleChange lastModTime e with
    | (t, none) => processEvents t es
    | (t, some fe) => fe :: processEvents t es

/-- runWatch: the callback invocations for a freshly registered watch
instance; the source initializes lastModTime to 0. -/
def runWatch (events : List RawEvent) : List FileChangeEvent :=
  processEvents 0 events

/-- Unfolding of one debounce step. -/
theorem processEvents_cons (last : Nat) (e : RawEvent) (es : List RawEvent) :
    processEvents last (e :: es) =
      if e.time - last < debounceMs then processEvents last es
      else ⟨e.fsPath, e.kind, e.time⟩ :: processEvents e.time es := by
  by_cases h : e.time - last < debounceMs <;>
    simp [processEvents, handleChange, h]

/-- Claim C1 (amended): a raw event arriving less than 500 ms after the last
accepted timestamp is dropped without a callback; any other raw event updates
the timestamp and triggers exactly one callback whose kind equals the raw
kind. In particular, for a first event at wall-clock time t with t at least
500 ms after the epoch, the pair of events at t and t+200 ms yields exactly
one callback (for the event at t), and the pair at t and t+600 ms yields two
callbacks. -/
theorem C1_debounce_gate :
    (∀ last e es, e.time - last < debounceMs →
      processEvents last (e :: es) = processEvents last es)
    ∧ (∀ last e es, debounceMs ≤ e.time - last →
      processEvents last (e :: es)
        = FileChangeEvent.mk e.fsPath e.kind e.time :: processEvents e.time es)
    ∧ (∀ t k p, debounceMs ≤ t →
      runWatch [RawEvent.mk t k p, RawEvent.mk (t + 200) k p]
          = [FileChangeEvent.mk p k t]
      ∧ runWatch [RawEvent.mk t k p, RawEvent.mk (t + 600) k p]
          = [FileChangeEvent.mk p k t, FileChangeEvent.mk p k (t + 600)]) := by
  refine ⟨?_, ?_, ?_⟩
  · intro last e es h
    rw [processEvents_cons, if_pos h]
  · intro last e es h
    rw [processEvents_cons, if_neg (Nat.not_lt.mpr h)]
  · intro t k p ht
    have hd : debounceMs = 500 := rfl
    constructor
    · rw [runWatch, processEvents_cons, if_neg (by simp; omega),
        processEvents_cons, if_pos (by simp; omega)]
      rfl
    · rw [runWatch, processEvents_cons, if_neg (by simp; omega),
        processEvents_cons, if_neg (by simp; omega)]
      rfl

/-- Claim C1 counterexample: with raw events at wall-clock times 0 ms and
200 ms, no callback fires at all — the event at time 0 is itself dropped,
because lastModTime is initialized to 0 and 0 - 0 < 500 — contradicting the
claim that exactly one callback fires for this input. -/
theorem C1_counterexample :
    runWatch [RawEvent.mk 0 ChangeType.modified "f",
      RawEvent.mk 200 ChangeType.modified "f"] = []
    ∧ (runWatch [RawEvent.mk 0 ChangeType.modified "f",
        RawEvent.mk 200 ChangeType.modified "f"]).length ≠ 1 := by
  exact ⟨rfl, by decide⟩

/-- Witness for C1_debounce_gate at t = 1000. -/
theorem C1_witness :
    runWatch [RawEvent.mk 1000 ChangeType.modified "s",
        RawEvent.mk 1200 ChangeType.modified "s"]
      = [FileChangeEvent.mk "s" ChangeType.modified 1000]
    ∧ runWatch [RawEvent.mk 1000 ChangeType.modified "s",
        RawEvent.mk 1600 ChangeType.modified "s"]
      = [FileChangeEvent.mk "s" ChangeType.modified 1000,
         FileChangeEvent.mk "s" ChangeType.modified 1600] :=
  C1_debounce_gate.2.2 1000 ChangeType.modified "s" (by decide)

/-- Claim C10 (amended): the last-accepted timestamp of a fresh watch instance
starts at 0, so the first raw event is accepted precisely when its wall-clock
time is at least debounceMs (500 ms) after the epoch; a first event earlier
than that is suppressed even though no callback has fired yet. -/
theorem C10_first_event :
    (∀ e es, debounceMs ≤ e.time →
      processEvents 0 (e :: es)
        = FileChangeEvent.mk e.fsPath e.kind e.time :: processEvents e.time es)
    ∧ (∀ e es, e.time < debounceMs →
      processEvents 0 (e :: es) = processEvents 0 es) := by
  constructor
  · intro e es h
    rw [processEvents_cons, if_neg (by simp; omega)]
  · intro e es h
    rw [processEvents_cons, if_pos (by simpa using h)]

/-- Claim C10 counterexample: a fresh watch instance suppresses its very first
raw event when that event arrives earlier than 500 ms after the epoch (here at
time 300), even though no callback has ever fired on the instance. -/
theorem C10_counterexample :
    runWatch [RawEvent.mk 300 ChangeType.modified "f"] = [] := rfl

/-- Witness for C10_first_event at time 500. -/
theorem C10_witness :
    processEvents 0 [RawEvent.mk 500 ChangeType.created "f"]
      = [FileChangeEvent.mk "f" ChangeType.created 500] :=
  C10_first_event.1 (RawEvent.mk 500 ChangeType.created "f") [] (by decide)

/-! ### Provider reader (CCSwitchService) -/

/-- A value stored in a column of the providers table, as surfaced to JS by
the SQLite driver; integers arrive as JS numbers, NULL as null. The bool and
text constructors cover values of other dynamic types. -/
inductive SqlValue where
  | null
  | num (n : Int)
  | bool (b : Bool)
  | text (s : String)
deriving DecidableEq

/-- JS strict equality test v === 1 as applied to a column value: true only
for the number 1. -/
def SqlValue.strictEqOne : SqlValue → Bool
  | .num n => n == 1
  | _ => false

/-- One row of the providers table. Text columns are Option String: none
models SQL NULL (JS null/undefined). -/
structure Row where
  id : Int
  name : Option String
  api_key : Option String
  base_url : Option String
  is_active : SqlValue
  preset : Option String
  models : Option String
  created_at : Option String
  updated_at : Option String
deriving DecidableEq

/-- The parsed model-role mapping (optional haiku/sonnet/opus/custom slots). -/
structure Models where
  haiku : Option String
  sonnet : Option String
  opus : Option String
  custom : Option String
deriving DecidableEq

/-- The provider record returned to callers (interface CCSwitchProvider). -/
structure CCSwitchProvider where
  id : Int
  name : String
  apiKey : String
  baseUrl : Option String
  isActive : Bool
  preset : Option String
  models : Option Models
  createdAt : Option String
  updatedAt : Option String
deriving DecidableEq

/-- JS expression v Or dflt on a string column: null/undefined and the empty
string are falsy and yield the default. -/
def jsOrString : Option String → String → String
  | none, dflt => dflt
  | some s, dflt => if s = "" then dflt else s

/-- JS expression v Or undefined on a string column: falsy values collapse to
undefined, truthy strings pass through. -/
def jsTruthyString : Option String → Option String
  | none => none
  | some s => if s = "" then none else some s

/-- parseModels: wraps the platform JSON.parse in a try/catch that returns
undefined when parsing throws. JSON.parse is a platform routine, modelled by
the parameter jsonParse, where none stands for a parse error being thrown. -/
def parseModels (jsonParse : String → Option Models) (modelsJson : String) :
    Option Models :=
  jsonParse modelsJson

/-- The row-to-record mapping applied by getProviders to each row. -/
def rowToProvider (jsonParse : String → Option Models) (row : Row) :
    CCSwitchProvider where
  id := row.id
  name := jsOrString row.name "Unknown"
  apiKey := jsOrString row.api_key ""
  baseUrl := jsTruthyString row.base_url
  isActive := row.is_active.strictEqOne
  preset := jsTruthyString row.preset
  models :=
    match jsTruthyString row.models with
    | none => none
    | some s => parseModels jsonParse s
  createdAt := row.created_at
  updatedAt := row.updated_at

/-- Ordering of rows by ascending identifier. -/
def rowIdLe (a b : Row) : Prop := a.id ≤ b.id

instance : DecidableRel rowIdLe := fun a b =>
  inferInstanceAs (Decidable (a.id ≤ b.id))

instance : IsTotal Row rowIdLe := ⟨fun a b => Int.le_total a.id b.id⟩

instance : IsTrans Row rowIdLe := ⟨fun _ _ _ h h2 => Int.le_trans h h2⟩

/-- Model of the SQL query SELECT * FROM providers ORDER BY id: the stored
rows in ascending-id order (stable sort of the insertion-ordered table). -/
def sortById (rs : List Row) : List Row :=
  List.insertionSort rowIdLe rs

/-- Ordering of provider records by ascending identifier. -/
def providerIdLe (a b : CCSwitchProvider) : Prop := a.id ≤ b.id

/-- Observable action on the database connection: opening (with the readonly
flag passed to the driver) and closing. -/
inductive DBAction where
  | openConn (readonly : Bool)
  | closeConn
deriving DecidableEq

/-- How the database behaves for one call: the constructor new Database throws
(openThrows), the prepared query throws after a successful open (queryThrows),
or the query succeeds and the providers table holds the given rows. -/
inductive QueryOutcome where
  | openThrows
  | queryThrows
  | rows (rs : List Row)
deriving DecidableEq

/-- The external world as seen by CCSwitchService: whether the database file
exists at the fixed path (fs.existsSync), and how the database behaves. -/
structure DBState where
  installed : Bool
  outcome : QueryOutcome
deriving DecidableEq

/-- A computation over the database: its result (error = a thrown exception)
together with the trace of connection actions it performed, in order. -/
structure Eff (α : Type) where
  result : Except String α
  trace : List DBAction

/-- A pure computation: no actions, normal result. -/
def Eff.pure (a : α) : Eff α := ⟨.ok a, []⟩

/-- Sequencing: if the first computation throws, the rest does not run. -/
def Eff.bind (x : Eff α) (f : α → Eff β) : Eff β :=
  match x.result with
  | .error e => ⟨.error e, x.trace⟩
  | .ok a => ⟨(f a).result, x.trace ++ (f a).trace⟩

/-- JS try/finally: the finalizer runs whether or not the body throws, and
when the finalizer completes normally the outcome of the whole statement is
the outcome of the body. -/
def Eff.tryFinally (body : Eff α) (fin : Eff Unit) : Eff α :=
  match fin.result with
  | .error e => ⟨.error e, body.trace ++ fin.trace⟩
  | .ok _ => ⟨body.result, body.trace ++ fin.trace⟩

/-- JS try/catch: a thrown exception transfers control to the handler. -/
def Eff.tryCatch (body : Eff α) (handler : String → Eff α) : Eff α :=
  match body.result with
  | .ok a => ⟨.ok a, body.trace⟩
  | .error e => ⟨(handler e).result, body.trace ++ (handler e).trace⟩

/-- new Database(dbPath, readonly true): either throws (no connection is
created) or opens a read-only connection. -/
def openDatabase (db : DBState) : Eff Unit :=
  match db.outcome with
  | .openThrows => ⟨.error "open failed", []⟩
  | _ => ⟨.ok (), [.openConn true]⟩

/-- db.prepare(SELECT * FROM providers ORDER BY id).all(): either throws, or
returns the table rows in ascending-id order. Only reached after a successful
open, so the openThrows case is dead there. -/
def queryProviders (db : DBState) : Eff (List Row) :=
  match db.outcome with
  | .openThrows => ⟨.error "open failed", []⟩
  | .queryThrows => ⟨.error "query failed", []⟩
  | .rows rs => ⟨.ok (sortById rs), []⟩

/-- db.close(). -/
def closeDatabase : Eff Unit := ⟨.ok (), [.closeConn]⟩

/-- isInstalled: fs.existsSync on the fixed database path. -/
def isInstalled (db : DBState) : Bool := db.installed

/-- getProviders: returns [] when the database file is absent; otherwise opens
the database read-only, queries the providers table ordered by id, maps every
row through rowToProvider, closes the connection in a finally block, and
converts any thrown exception into [] in the outer catch. -/
def getProviders (jsonParse : String → Option Models) (db : DBState) :
    Eff (List CCSwitchProvider) :=
  if !isInstalled db then
    Eff.pure []
  else
    Eff.tryCatch
      (Eff.bind (openDatabase db) fun _ =>
        Eff.tryFinally
          (Eff.bind (queryProviders db) fun rows =>
            Eff.pure (rows.map (rowToProvider jsonParse)))
          closeDatabase)
      (fun _ => Eff.pure [])

/-- getActiveProvider: re-invokes getProviders and returns the first record
whose isActive flag is set (Array.prototype.find), or none. -/
def getActiveProvider (jsonParse : String → Option Models) (db : DBState) :
    Eff (Option CCSwitchProvider) :=
  Eff.bind (getProviders jsonParse db) fun providers =>
    Eff.pure (providers.find? fun p => p.isActive)

/-! ### Helper lemmas about the provider reader -/

/-- Sorting the table is a permutation of the table. -/
theorem sortById_perm (rs : List Row) : (sortById rs).Perm rs :=
  List.perm_insertionSort rowIdLe rs

/-- Sorting the table yields ascending identifiers. -/
theorem sortById_sorted (rs : List Row) : List.Sorted rowIdLe (sortById rs) :=
  List.sorted_insertionSort rowIdLe rs

/-- rowToProvider preserves the identifier. -/
theorem rowToProvider_id (jp : String → Option Models) (r : Row) :
    (rowToProvider jp r).id = r.id := rfl

/-- Mapping a row list sorted by id gives a record list sorted by id. -/
theorem sorted_map_rowToProvider (jp : String → Option Models) (rs : List Row)
    (h : List.Sorted rowIdLe rs) :
    List.Sorted providerIdLe (rs.map (rowToProvider jp)) :=
  List.Pairwise.map (rowToProvider jp) (fun _ _ hab => hab) h

/-- Evaluation of getProviders when the database file is absent. -/
theorem getProviders_not_installed (jp : String → Option Models) (db : DBState)
    (h : db.installed = false) :
    getProviders jp db = ⟨.ok [], []⟩ := by
  simp [getProviders, isInstalled, h, Eff.pure]

/-- Evaluation of getProviders when opening the database throws. -/
theorem getProviders_openThrows (jp : String → Option Models) (db : DBState)
    (hi : db.installed = true) (h : db.outcome = .openThrows) :
    getProviders jp db = ⟨.ok [], []⟩ := by
  simp [getProviders, isInstalled, hi, h, Eff.pure, Eff.bind, Eff.tryCatch,
    Eff.tryFinally, openDatabase, queryProviders, closeDatabase]

/-- Evaluation of getProviders when the query throws after a successful open:
the connection is still opened read-only and closed, and the thrown error is
converted to an empty list. -/
theorem getProviders_queryThrows (jp : String → Option Models) (db : DBState)
    (hi : db.installed = true) (h : db.outcome = .queryThrows) :
    getProviders jp db = ⟨.ok [], [.openConn true, .closeConn]⟩ := by
  simp [getProviders, isInstalled, hi, h, Eff.pure, Eff.bind, Eff.tryCatch,
    Eff.tryFinally, openDatabase, queryProviders, closeDatabase]

/-- Evaluation of getProviders when the query succeeds. -/
theorem getProviders_rows (jp : String → Option Models) (db : DBState)
    (rs : List Row) (hi : db.installed = true) (h : db.outcome = .rows rs) :
    getProviders jp db
      = ⟨.ok ((sortById rs).map (rowToProvider jp)),
         [.openConn true, .closeConn]⟩ := by
  simp [getProviders, isInstalled, hi, h, Eff.pure, Eff.bind, Eff.tryCatch,
    Eff.tryFinally, openDatabase, queryProviders, closeDatabase]

/-- getProviders never throws. -/
theorem getProviders_isOk (jp : String → Option Models) (db : DBState) :
    ∃ ps, (getProviders jp db).result = .ok ps := by
  cases hi : db.installed with
  | false => exact ⟨[], by rw [getProviders_not_installed jp db hi]⟩
  | true =>
    cases h : db.outcome with
    | openThrows => exact ⟨[], by rw [getProviders_openThrows jp db hi h]⟩
    | queryThrows => exact ⟨[], by rw [getProviders_queryThrows jp db hi h]⟩
    | rows rs =>
      exact ⟨(sortById rs).map (rowToProvider jp),
        by rw [getProviders_rows jp db rs hi h]⟩

/-- Every list returned by getProviders is sorted by ascending identifier. -/
theorem getProviders_result_sorted (jp : String → Option Models) (db : DBState)
    (ps : List CCSwitchProvider) (h : (getProviders jp db).result = .ok ps) :
    List.Sorted providerIdLe ps := by
  cases hi : db.installed with
  | false =>
    rw [getProviders_not_installed jp db hi] at h
    cases h
    exact List.sorted_nil
  | true =>
    cases ho : db.outcome with
    | openThrows =>
      rw [getProviders_openThrows jp db hi ho] at h
      cases h
      exact List.sorted_nil
    | queryThrows =>
      rw [getProviders_queryThrows jp db hi ho] at h
      cases h
      exact List.sorted_nil
    | rows rs =>
      rw [getProviders_rows jp db rs hi ho] at h
      cases h
      exact sorted_map_rowToProvider jp (sortById rs) (sortById_sorted rs)

/-- getActiveProvider applies Array.prototype.find to the getProviders
result. -/
theorem getActiveProvider_eq_find (jp : String → Option Models) (db : DBState)
    (ps : List CCSwitchProvider) (h : (getProviders jp db).result = .ok ps) :
    (getActiveProvider jp db).result = .ok (ps.find? fun p => p.isActive) := by
  simp [getActiveProvider, Eff.bind, h, Eff.pure]

/-- In a list sorted by ascending identifier, the first active record has an
identifier no larger than that of any active record. -/
theorem find_first_le (ps : List CCSwitchProvider)
    (hs : List.Sorted providerIdLe ps) (a : CCSwitchProvider)
    (h : (ps.find? fun p => p.isActive) = some a) :
    ∀ q ∈ ps, q.isActive = true → a.id ≤ q.id := by
  induction ps with
  | nil => simp at h
  | cons b l ih =>
    have hs' := List.pairwise_cons.mp hs
    cases hb : b.isActive with
    | true =>
      rw [List.find?_cons, hb] at h
      cases h
      intro q hq hq'
      rcases List.mem_cons.mp hq with hqb | hql
      · exact hqb ▸ Int.le_refl _
      · exact hs'.1 q hql
    | false =>
      rw [List.find?_cons, hb] at h
      intro q hq hq'
      rcases List.mem_cons.mp hq with hqb | hql
      · rw [hqb] at hq'
        rw [hq'] at hb
        cases hb
      · exact ih hs'.2 h q hql hq'

/-! ### Claims about the provider reader -/

/-- Claim C2: getProviders returns the provider records in ascending-id order
(a sorted permutation of the mapped table), returns [] when the database file
is absent or when opening or querying throws, and never throws itself. -/
theorem C2_getProviders (jp : String → Option Models) (db : DBState) :
    (∃ ps, (getProviders jp db).result = .ok ps)
    ∧ (db.installed = false → (getProviders jp db).result = .ok [])
    ∧ (db.outcome = .openThrows → (getProviders jp db).result = .ok [])
    ∧ (db.outcome = .queryThrows → (getProviders jp db).result = .ok [])
    ∧ (∀ rs, db.outcome = .rows rs → db.installed = true →
        (getProviders jp db).result
            = .ok ((sortById rs).map (rowToProvider jp))
        ∧ ((sortById rs).map (rowToProvider jp)).Perm
            (rs.map (rowToProvider jp))
        ∧ List.Sorted providerIdLe ((sortById rs).map (rowToProvider jp))) := by
  refine ⟨getProviders_isOk jp db, ?_, ?_, ?_, ?_⟩
  · intro h
    rw [getProviders_not_installed jp db h]
  · intro h
    cases hi : db.installed with
    | false => rw [getProviders_not_installed jp db hi]
    | true => rw [getProviders_openThrows jp db hi h]
  · intro h
    cases hi : db.installed with
    | false => rw [getProviders_not_installed jp db hi]
    | true => rw [getProviders_queryThrows jp db hi h]
  · intro rs h hi
    refine ⟨by rw [getProviders_rows jp db rs hi h], ?_, ?_⟩
    · exact (sortById_perm rs).map (rowToProvider jp)
    · exact sorted_map_rowToProvider jp (sortById rs) (sortById_sorted rs)

/-- Witness for C2_getProviders on a two-row table stored in descending-id
order. -/
theorem C2_witness :
    (getProviders (fun _ => none)
        ⟨true, .rows [⟨2, some "B", some "", none, .num 1, none, none, none, none⟩,
          ⟨1, some "A", some "", none, .num 0, none, none, none, none⟩]⟩).result
      = .ok ((sortById
          [⟨2, some "B", some "", none, .num 1, none, none, none, none⟩,
           ⟨1, some "A", some "", none, .num 0, none, none, none, none⟩]).map
            (rowToProvider (fun _ => none)))
    ∧ ((sortById
          [⟨2, some "B", some "", none, .num 1, none, none, none, none⟩,
           ⟨1, some "A", some "", none, .num 0, none, none, none, none⟩]).map
            (rowToProvider (fun _ => none))).Perm
        ([⟨2, some "B", some "", none, .num 1, none, none, none, none⟩,
          ⟨1, some "A", some "", none, .num 0, none, none, none, none⟩].map
            (rowToProvider (fun _ => none)))
    ∧ List.Sorted providerIdLe
        ((sortById
          [⟨2, some "B", some "", none, .num 1, none, none, none, none⟩,
           ⟨1, some "A", some "", none, .num 0, none, none, none, none⟩]).map
            (rowToProvider (fun _ => none))) :=
  (C2_getProviders (fun _ => none)
      ⟨true, .rows [⟨2, some "B", some "", none, .num 1, none, none, none, none⟩,
        ⟨1, some "A", some "", none, .num 0, none, none, none, none⟩]⟩).2.2.2.2
    [⟨2, some "B", some "", none, .num 1, none, none, none, none⟩,
     ⟨1, some "A", some "", none, .num 0, none, none, none, none⟩] rfl rfl

/-- Claim C3: getActiveProvider returns the first record of the getProviders
sequence whose active flag is set (none when no flag is set); with several
active records it returns the one with the smallest identifier among the
active ones, and no error is raised. -/
theorem C3_getActiveProvider (jp : String → Option Models) (db : DBState) :
    (∀ ps, (getProviders jp db).result = .ok ps →
      (getActiveProvider jp db).result = .ok (ps.find? fun p => p.isActive))
    ∧ (∀ ps, (getProviders jp db).result = .ok ps →
        (∀ p ∈ ps, p.isActive = false) →
      (getActiveProvider jp db).result = .ok none)
    ∧ (∀ ps a, (getProviders jp db).result = .ok ps →
        (getActiveProvider jp db).result = .ok (some a) →
      a.isActive = true ∧ a ∈ ps
        ∧ ∀ q ∈ ps, q.isActive = true → a.id ≤ q.id) := by
  refine ⟨fun ps h => getActiveProvider_eq_find jp db ps h, ?_, ?_⟩
  · intro ps h hall
    rw [getActiveProvider_eq_find jp db ps h]
    have : (ps.find? fun p => p.isActive) = none := by
      rw [List.find?_eq_none]
      intro p hp
      simp [hall p hp]
    rw [this]
  · intro ps a h ha
    rw [getActiveProvider_eq_find jp db ps h] at ha
    have hfind' : (ps.find? fun p => p.isActive) = some a := by
      cases hq : ps.find? fun p => p.isActive with
      | none => rw [hq] at ha; cases ha
      | some b =>
        rw [hq] at ha
        cases ha
        rfl
    refine ⟨List.find?_some hfind', List.mem_of_find?_eq_some hfind', ?_⟩
    exact find_first_le ps (getProviders_result_sorted jp db ps h) a hfind'

/-- Witness for C3_getActiveProvider on a table with two active rows: the
record with the smaller identifier wins. -/
theorem C3_witness :
    (⟨1, "A", "k1", none, true, none, none, none, none⟩ :
        CCSwitchProvider).isActive = true
    ∧ (⟨1, "A", "k1", none, true, none, none, none, none⟩ : CCSwitchProvider)
        ∈ [(⟨1, "A", "k1", none, true, none, none, none, none⟩ :
              CCSwitchProvider),
           ⟨2, "B", "k2", none, true, none, none, none, none⟩]
    ∧ ∀ q ∈ [(⟨1, "A", "k1", none, true, none, none, none, none⟩ :
              CCSwitchProvider),
           ⟨2, "B", "k2", none, true, none, none, none, none⟩],
        q.isActive = true →
        (⟨1, "A", "k1", none, true, none, none, none, none⟩ :
            CCSwitchProvider).id ≤ q.id :=
  (C3_getActiveProvider (fun _ => none)
      ⟨true, .rows [⟨2, some "B", some "k2", none, .num 1, none, none, none, none⟩,
        ⟨1, some "A", some "k1", none, .num 1, none, none, none, none⟩]⟩).2.2
    [⟨1, "A", "k1", none, true, none, none, none, none⟩,
     ⟨2, "B", "k2", none, true, none, none, none, none⟩]
    ⟨1, "A", "k1", none, true, none, none, none, none⟩ rfl rfl

/-- Claim C4: a row-level field defect (missing or empty name, model-mapping
text that does not parse) is replaced by a local default — placeholder name
Unknown, absent mapping — and the defective row still yields a record, with
no truncation of the overall read. -/
theorem C4_row_defects (jp : String → Option Models) (db : DBState)
    (rs : List Row) (hi : db.installed = true) (h : db.outcome = .rows rs) :
    (getProviders jp db).result
        = .ok ((sortById rs).map (rowToProvider jp))
    ∧ ((sortById rs).map (rowToProvider jp)).length = rs.length
    ∧ (∀ r ∈ rs, rowToProvider jp r ∈ (sortById rs).map (rowToProvider jp))
    ∧ (∀ r : Row, r.name = none ∨ r.name = some "" →
        (rowToProvider jp r).name = "Unknown")
    ∧ (∀ (r : Row) (s : String), r.models = some s → jp s = none →
        (rowToProvider jp r).models = none) := by
  refine ⟨by rw [getProviders_rows jp db rs hi h], ?_, ?_, ?_, ?_⟩
  · rw [List.length_map]
    exact (sortById_perm rs).length_eq
  · intro r hr
    exact List.mem_map_of_mem (rowToProvider jp)
      (((sortById_perm rs).mem_iff).mpr hr)
  · intro r hr
    rcases hr with hn | hn <;> simp [rowToProvider, hn, jsOrString]
  · intro r s hm hjp
    by_cases hs : s = ""
    · simp [rowToProvider, hm, hs, jsTruthyString]
    · simp [rowToProvider, hm, hs, jsTruthyString, parseModels, hjp]

/-- Witness for C4_row_defects on a one-row table whose row has a NULL name
and an unparseable models column. -/
theorem C4_witness :
    (rowToProvider (fun _ => none)
        ⟨7, none, none, none, .null, none, some "notjson", none, none⟩).name
      = "Unknown"
    ∧ (rowToProvider (fun _ => none)
        ⟨7, none, none, none, .null, none, some "notjson", none, none⟩).models
      = none
    ∧ ((sortById [⟨7, none, none, none, .null, none, some "notjson", none,
          none⟩]).map (rowToProvider (fun _ => none))).length
      = [(⟨7, none, none, none, .null, none, some "notjson", none, none⟩ :
          Row)].length :=
  ⟨(C4_row_defects (fun _ => none)
      ⟨true, .rows [⟨7, none, none, none, .null, none, some "notjson", none,
        none⟩]⟩
      [⟨7, none, none, none, .null, none, some "notjson", none, none⟩]
      rfl rfl).2.2.2.1
    ⟨7, none, none, none, .null, none, some "notjson", none, none⟩
    (Or.inl rfl),
   (C4_row_defects (fun _ => none)
      ⟨true, .rows [⟨7, none, none, none, .null, none, some "notjson", none,
        none⟩]⟩
      [⟨7, none, none, none, .null, none, some "notjson", none, none⟩]
      rfl rfl).2.2.2.2
    ⟨7, none, none, none, .null, none, some "notjson", none, none⟩
    "notjson" rfl rfl,
   (C4_row_defects (fun _ => none)
      ⟨true, .rows [⟨7, none, none, none, .null, none, some "notjson", none,
        none⟩]⟩
      [⟨7, none, none, none, .null, none, some "notjson", none, none⟩]
      rfl rfl).2.1⟩

/-- Claim C5: when the database file is absent, isInstalled is false,
getProviders returns the empty sequence, getActiveProvider returns none, and
none of the three throws. -/
theorem C5_missing_store (jp : String → Option Models) (db : DBState)
    (h : db.installed = false) :
    isInstalled db = false
    ∧ (getProviders jp db).result = .ok []
    ∧ (getActiveProvider jp db).result = .ok none := by
  have hp : (getProviders jp db).result = .ok [] := by
    rw [getProviders_not_installed jp db h]
  refine ⟨h, hp, ?_⟩
  rw [getActiveProvider_eq_find jp db [] hp]
  rfl

/-- Witness for C5_missing_store with the file absent. -/
theorem C5_witness :
    isInstalled ⟨false, .queryThrows⟩ = false
    ∧ (getProviders (fun _ => none) ⟨false, .queryThrows⟩).result = .ok []
    ∧ (getActiveProvider (fun _ => none) ⟨false, .queryThrows⟩).result
        = .ok none :=
  C5_missing_store (fun _ => none) ⟨false, .queryThrows⟩ rfl

/-- Claim C6: on every call, getProviders either performs no connection
action at all, or opens exactly one read-only connection and closes it before
returning — including the path where the query throws. -/
theorem C6_connection_discipline (jp : String → Option Models)
    (db : DBState) :
    (getProviders jp db).trace = []
    ∨ (getProviders jp db).trace = [DBAction.openConn true,
        DBAction.closeConn] := by
  cases hi : db.installed with
  | false =>
    left
    rw [getProviders_not_installed jp db hi]
  | true =>
    cases ho : db.outcome with
    | openThrows =>
      left
      rw [getProviders_openThrows jp db hi ho]
    | queryThrows =>
      right
      rw [getProviders_queryThrows jp db hi ho]
    | rows rs =>
      right
      rw [getProviders_rows jp db rs hi ho]

/-- Claim C9: a record produced from a row is active exactly when the stored
is_active value is the number 1; NULL, 0, 2, booleans and strings all yield
an inactive record, and the read still succeeds. -/
theorem C9_isActive_strict (jp : String → Option Models) (db : DBState)
    (rs : List Row) (hi : db.installed = true) (h : db.outcome = .rows rs) :
    (getProviders jp db).result
        = .ok ((sortById rs).map (rowToProvider jp))
    ∧ (∀ r : Row,
        ((rowToProvider jp r).isActive = true ↔ r.is_active = SqlValue.num 1))
    ∧ (∀ r : Row,
        r.is_active = SqlValue.null ∨ r.is_active = SqlValue.num 0
          ∨ r.is_active = SqlValue.num 2 ∨ (∃ b, r.is_active = SqlValue.bool b)
          ∨ (∃ s, r.is_active = SqlValue.text s) →
        (rowToProvider jp r).isActive = false) := by
  refine ⟨by rw [getProviders_rows jp db rs hi h], ?_, ?_⟩
  · intro r
    cases hv : r.is_active with
    | null => simp [rowToProvider, SqlValue.strictEqOne, hv]
    | num n => simp [rowToProvider, SqlValue.strictEqOne, hv]
    | bool b => simp [rowToProvider, SqlValue.strictEqOne, hv]
    | text s => simp [rowToProvider, SqlValue.strictEqOne, hv]
  · intro r hr
    rcases hr with hv | hv | hv | ⟨b, hv⟩ | ⟨s, hv⟩ <;>
      simp [rowToProvider, SqlValue.strictEqOne, hv]

/-- Witness for C9_isActive_strict over rows carrying 1, 0, NULL, 2, true and
the string 1 in the is_active column. -/
theorem C9_witness :
    (rowToProvider (fun _ => none)
        ⟨1, some "A", none, none, .num 1, none, none, none, none⟩).isActive
      = true
    ∧ (rowToProvider (fun _ => none)
        ⟨2, some "B", none, none, .num 0, none, none, none, none⟩).isActive
      = false
    ∧ (rowToProvider (fun _ => none)
        ⟨3, some "C", none, none, .null, none, none, none, none⟩).isActive
      = false
    ∧ (rowToProvider (fun _ => none)
        ⟨4, some "D", none, none, .num 2, none, none, none, none⟩).isActive
      = false
    ∧ (rowToProvider (fun _ => none)
        ⟨5, some "E", none, none, .bool true, none, none, none,
          none⟩).isActive = false
    ∧ (rowToProvider (fun _ => none)
        ⟨6, some "F", none, none, .text "1", none, none, none,
          none⟩).isActive = false :=
  ⟨((C9_isActive_strict (fun _ => none)
      ⟨true, .rows [⟨1, some "A", none, none, .num 1, none, none, none,
        none⟩]⟩
      [⟨1, some "A", none, none, .num 1, none, none, none, none⟩]
      rfl rfl).2.1
    ⟨1, some "A", none, none, .num 1, none, none, none, none⟩).mpr rfl,
   (C9_isActive_strict (fun _ => none)
      ⟨true, .rows [⟨1, some "A", none, none, .num 1, none, none, none,
        none⟩]⟩
      [⟨1, some "A", none, none, .num 1, none, none, none, none⟩]
      rfl rfl).2.2
    ⟨2, some "B", none, none, .num 0, none, none, none, none⟩
    (Or.inr (Or.inl rfl)),
   (C9_isActive_strict (fun _ => none)
      ⟨true, .rows [⟨1, some "A", none, none, .num 1, none, none, none,
        none⟩]⟩
      [⟨1, some "A", none, none, .num 1, none, none, none, none⟩]
      rfl rfl).2.2
    ⟨3, some "C", none, none, .null, none, none, none, none⟩ (Or.inl rfl),
   (C9_isActive_strict (fun _ => none)
      ⟨true, .rows [⟨1, some "A", none, none, .num 1, none, none, none,
        none⟩]⟩
      [⟨1, some "A", none, none, .num 1, none, none, none, none⟩]
      rfl rfl).2.2
    ⟨4, some "D", none, none, .num 2, none, none, none, none⟩
    (Or.inr (Or.inr (Or.inl rfl))),
   (C9_isActive_strict (fun _ => none)
      ⟨true, .rows [⟨1, some "A", none, none, .num 1, none, none, none,
        none⟩]⟩
      [⟨1, some "A", none, none, .num 1, none, none, none, none⟩]
      rfl rfl).2.2
    ⟨5, some "E", none, none, .bool true, none, none, none, none⟩
    (Or.inr (Or.inr (Or.inr (Or.inl ⟨true, rfl⟩)))),
   (C9_isActive_strict (fun _ => none)
      ⟨true, .rows [⟨1, some "A", none, none, .num 1, none, none, none,
        none⟩]⟩
      [⟨1, some "A", none, none, .num 1, none, none, none, none⟩]
      rfl rfl).2.2
    ⟨6, some "F", none, none, .text "1", none, none, none, none⟩
    (Or.inr (Or.inr (Or.inr (Or.inr ⟨"1", rfl⟩))))⟩

/-! ### Opening the companion application (CCSwitchService.openCCSwitch) -/

/-- The value of process.platform relevant to the launch-command selection. -/
inductive Platform where
  | darwin
  | win32
  | linux
deriving DecidableEq

/-- The platform-specific launch command string built by openCCSwitch. -/
def launchCommand : Platform → String
  | .darwin => "open -a \"CC-Switch\" || open -a \"cc-switch\""
  | .win32 => "start \"\" \"CC-Switch.exe\" || start \"\" \"cc-switch.exe\""
  | .linux => "cc-switch || CC-Switch || flatpak run com.ccswitch.app"

/-- Outcome of the promise returned by the async method to its caller. -/
inductive PromiseOutcome where
  | resolved
  | rejected (message : String)
deriving DecidableEq

/-- What happens inside the exec callback when it eventually runs, on a later
event-loop tick: a success log line, or a thrown error that no surrounding
handler can catch anymore (an uncaught exception). -/
inductive CallbackEffect where
  | loggedSuccess
  | uncaughtThrow (message : String)
deriving DecidableEq

/-- openCCSwitch: builds the platform command and calls
child_process.exec(command, callback). exec returns at once and invokes the
callback asynchronously, so the synchronous body of the async method — the
only region guarded by its try/catch — finishes before the callback runs, and
the returned promise settles then. execCallThrows models the exec invocation
itself throwing synchronously (the one case the catch block can see, where
the error is logged and rethrown, rejecting the promise); execFails models
the launch command failing, reported to the callback as a non-null error, in
which case the callback logs a warning and throws a user-facing error on its
own tick — after the promise has already resolved. The first component is the
promise outcome observed by the caller, the second the later callback
effect. -/
def openCCSwitch (platform : Platform) (execCallThrows execFails : Bool) :
    PromiseOutcome × Option CallbackEffect :=
  let _command := launchCommand platform
  if execCallThrows then
    (PromiseOutcome.rejected "exec invocation threw", none)
  else
    (PromiseOutcome.resolved,
      some (if execFails then
        CallbackEffect.uncaughtThrow "无法打开 CC-Switch，请确认应用已安装"
      else CallbackEffect.loggedSuccess))

/-- Claim C7, evaluated at the failing input: on every platform, when the
launch command fails, the promise handed to the caller has already resolved —
the user-facing error is thrown inside the exec callback on a later
event-loop tick, where it is an uncaught exception that no awaiting caller
(such as handleOpenCCSwitch in the integration guide) can observe as a
rejection. -/
theorem C7_launch_failure_not_rejected :
    (openCCSwitch Platform.darwin false true)
        = (PromiseOutcome.resolved,
           some (CallbackEffect.uncaughtThrow "无法打开 CC-Switch，请确认应用已安装"))
    ∧ (openCCSwitch Platform.win32 false true)
        = (PromiseOutcome.resolved,
           some (CallbackEffect.uncaughtThrow "无法打开 CC-Switch，请确认应用已安装"))
    ∧ (openCCSwitch Platform.linux false true)
        = (PromiseOutcome.resolved,
           some (CallbackEffect.uncaughtThrow "无法打开 CC-Switch，请确认应用已安装"))
    ∧ (openCCSwitch Platform.darwin false false)
        = (PromiseOutcome.resolved, some CallbackEffect.loggedSuccess) :=
  ⟨rfl, rfl, rfl, rfl⟩

/-! ### WebView message bridge (WebViewService.postMessage) -/

/-- The outbound envelope handed to webview.postMessage. -/
structure Envelope (α : Type) where
  type : String
  message : α
deriving DecidableEq

/-- postMessage: throws synchronously when the presentation surface has not
been bound yet (this.webview is undefined); otherwise hands the bound surface
exactly the envelope tagged from-extension carrying the unmodified payload.
The ok value is the argument passed to webview.postMessage. -/
def postMessage {W α : Type} (webview : Option W) (message : α) :
    Except String (Envelope α) :=
  match webview with
  | none => .error "WebView not initialized"
  | some _ => .ok ⟨"from-extension", message⟩

/-- Claim C8: postMessage throws if and only if the surface is unbound, and a
bound surface receives exactly the envelope with type from-extension and the
unmodified payload. -/
theorem C8_postMessage {W α : Type} (webview : Option W) (message : α) :
    (webview = none →
      postMessage webview message = .error "WebView not initialized")
    ∧ ((∃ e, postMessage webview message = .error e) ↔ webview = none)
    ∧ (∀ w, webview = some w →
        postMessage webview message = .ok ⟨"from-extension", message⟩) := by
  cases webview with
  | none =>
    refine ⟨fun _ => rfl, ?_, ?_⟩
    · simp [postMessage]
    · intro w hw
      cases hw
  | some w =>
    refine ⟨?_, ?_, ?_⟩
    · intro hw
      cases hw
    · simp [postMessage]
    · intro w' hw
      cases hw
      rfl

/-- Witness for C8_postMessage: the unbound case throws, and posting the
payload 1 to a bound surface delivers the exact envelope. -/
theorem C8_witness :
    postMessage (none : Option Unit) (1 : Nat)
        = .error "WebView not initialized"
    ∧ postMessage (some ()) (1 : Nat) = .ok ⟨"from-extension", 1⟩ :=
  ⟨(C8_postMessage (none : Option Unit) (1 : Nat)).1 rfl,
   (C8_postMessage (some ()) (1 : Nat)).2.2 () rfl⟩

end Claudix
